import Mathlib

/-!
Shallow embedding of the request-authorization pipeline of the
fullstack-starter repository: the JWT validation helper
(backend/pkg/jwt/jwt.go), the identity sync (backend/services/user_service.go),
and the Auth / Authorize middleware chain (backend/middleware/auth.go), with
the Casbin rule set seeded by backend/migrations/000002_add_casbin.up.sql.
-/

/-- Equality of `Except` results is decidable when both components are. -/
instance {ε α : Type} [DecidableEq ε] [DecidableEq α] : DecidableEq (Except ε α) :=
  fun a b =>
    match a, b with
    | .ok x, .ok y => decidable_of_iff (x = y) (by simp)
    | .error x, .error y => decidable_of_iff (x = y) (by simp)
    | .ok _, .error _ => isFalse (by simp)
    | .error _, .ok _ => isFalse (by simp)

namespace FullstackStarter

/-- Models `models.User` (backend/models/user.go), one row of the `users`
table; timestamps are abstract ticks. -/
structure User where
  id : String
  email : String
  name : String
  googleID : Option String
  avatarURL : Option String
  isActive : Bool
  createdAt : Nat
  updatedAt : Nat
deriving Repr, DecidableEq

/-- Models `jwt.Claims` (backend/pkg/jwt/jwt.go): the custom claims extracted
from a verified token (the uuid subject is kept as a string). -/
structure Claims where
  userID : String
  email : String
  name : String
deriving Repr, DecidableEq

/-- A parsed JWT as the golang-jwt library sees it: the algorithm declared in
the header, whether the signature verifies under the configured RSA public
key, the registered temporal claims and the custom claims. -/
structure Token where
  alg : String
  sigValid : Bool
  exp : Nat
  nbf : Option Nat
  sub : String
  email : String
  name : String
deriving Repr, DecidableEq

/-- The algorithms whose golang-jwt signing method has dynamic type
`*jwt.SigningMethodRSA`, the type accepted by the key function in
`ValidateAccessToken`. -/
def isRSAFamily (alg : String) : Bool :=
  alg == "RS256" || alg == "RS384" || alg == "RS512"

/-- Models `jwt.ValidateAccessToken` (backend/pkg/jwt/jwt.go): the key
function rejects any token whose signing method is not `*jwt.SigningMethodRSA`
before any signature check; then the library verifies the signature against
the public key and validates the registered exp/nbf claims; on success the
claims are returned. -/
def ValidateAccessToken (tok : Token) (now : Nat) : Except String Claims :=
  if !isRSAFamily tok.alg then
    .error ("unexpected signing method: " ++ tok.alg)
  else if !tok.sigValid then
    .error "token signature is invalid"
  else if tok.exp ≤ now then
    .error "token has invalid claims: token is expired"
  else if tok.nbf.any (fun n => decide (now < n)) then
    .error "token has invalid claims: token is not valid yet"
  else
    .ok ⟨tok.sub, tok.email, tok.name⟩

/-- Models the SQL statement in `services.CreateOrUpdateUser`:
`INSERT INTO users (id, email, name, updated_at) VALUES (..) ON CONFLICT (id)
DO UPDATE SET email = EXCLUDED.email, name = EXCLUDED.name, updated_at = NOW()
RETURNING *`. On a fresh insert the schema defaults of migration 000001 apply:
`google_id`/`avatar_url` NULL, `is_active` TRUE, `created_at`/`updated_at`
NOW(). Returns the affected row and the new table state. -/
def upsertUser (rows : List User) (id email name : String) (now : Nat) :
    User × List User :=
  match rows.find? (fun r => r.id == id) with
  | some u =>
      let u2 : User := { u with email := email, name := name, updatedAt := now }
      (u2, rows.map (fun r => if r.id == id then u2 else r))
  | none =>
      let u : User := ⟨id, email, name, none, none, true, now, now⟩
      (u, rows ++ [u])

/-- Models `services.CreateOrUpdateUser` (backend/services/user_service.go):
the upsert above, or `nil, err` when the persistence layer fails (the failure
is modelled by the boolean flag). -/
def CreateOrUpdateUser (fail : Bool) (rows : List User)
    (id email name : String) (now : Nat) : Option (User × List User) :=
  if fail then none else some (upsertUser rows id email name now)

/-- A value stored in a request context; the constructors model Go dynamic
types, so that the type assertions `.(uuid.UUID)` and `.(string)` in the
context getters can fail. -/
inductive CtxVal where
  | uuid (u : String)
  | str (s : String)
deriving Repr, DecidableEq

/-- A request context: the chain built by `context.WithValue`, newest first. -/
abbrev Ctx := List (String × CtxVal)

/-- Models `context.WithValue`. -/
def Ctx.withValue (ctx : Ctx) (k : String) (v : CtxVal) : Ctx := (k, v) :: ctx

/-- Models `ctx.Value(key)`: the most recently stored value for the key. -/
def Ctx.value (ctx : Ctx) (k : String) : Option CtxVal :=
  (List.find? (fun p => p.1 == k) ctx).map (fun p => p.2)

/-- The context key `middleware.UserIDKey`. -/
def UserIDKey : String := "userID"

/-- The context key `middleware.EmailKey`. -/
def EmailKey : String := "email"

/-- The context key `middleware.NameKey`. -/
def NameKey : String := "name"

/-- Models `middleware.GetUserID`: context lookup plus the `.(uuid.UUID)`
type assertion; `some` corresponds to `ok = true`. -/
def GetUserID (ctx : Ctx) : Option String :=
  match ctx.value UserIDKey with
  | some (.uuid u) => some u
  | _ => none

/-- Models `middleware.GetEmail`: context lookup plus the `.(string)` type
assertion; `some` corresponds to `ok = true`. -/
def GetEmail (ctx : Ctx) : Option String :=
  match ctx.value EmailKey with
  | some (.str s) => some s
  | _ => none

/-- Models `middleware.GetName`: context lookup plus the `.(string)` type
assertion; `some` corresponds to `ok = true`. -/
def GetName (ctx : Ctx) : Option String :=
  match ctx.value NameKey with
  | some (.str s) => some s
  | _ => none

/-- Split a character list at the first occurrence of `sep`, if any. -/
def splitFirst (sep : Char) : List Char → Option (List Char × List Char)
  | [] => none
  | c :: cs =>
      if c == sep then some ([], cs)
      else
        match splitFirst sep cs with
        | none => none
        | some (a, b) => some (c :: a, b)

/-- Models Go `strings.SplitN(s, " ", 2)`: split at the first space only,
yielding one part when the separator is absent and two parts otherwise. -/
def splitN2 (s : String) : List String :=
  match splitFirst ' ' s.data with
  | none => [s]
  | some (a, b) => [String.mk a, String.mk b]

/-- Split a character list on every occurrence of `sep` (Go strings.Split). -/
def splitAll (sep : Char) : List Char → List (List Char)
  | [] => [[]]
  | c :: cs =>
      match splitAll sep cs with
      | [] => [[]]
      | g :: gs => if c == sep then [] :: g :: gs else (c :: g) :: gs

/-- The calls the pipeline makes to its collaborators, recorded in order:
`ValidateAccessToken`, `CreateOrUpdateUser`, `enforcer.Enforce`, and the
business handler at the end of the chain. -/
inductive Event where
  | validateCall
  | syncCall
  | enforceCall
  | handlerCall
deriving Repr, DecidableEq

/-- The externally observable result of running (part of) the middleware
chain on a request: either a terminal `http.Error` response with its status
code and body, or a dispatch to the next stage with the request context. -/
inductive Outcome where
  | reject (status : Nat) (body : String)
  | dispatched (ctx : Ctx)
deriving Repr, DecidableEq

/-- An inbound HTTP request as the middleware chain sees it: the
`Authorization` header (`""` when absent, as `r.Header.Get` returns), the URL
path, the method, and the incoming request context. -/
structure Request where
  authHeader : String
  path : String
  method : String
  ctx : Ctx
deriving Repr, DecidableEq

/-- The pipeline's collaborators and ambient state: the jwt library's parse
of a compact token string (`none` models a malformed token), the users table
together with a persistence-failure flag for the sync step, the Casbin
enforcer, and the current time. -/
structure Env where
  parse : String → Option Token
  syncFail : Bool
  users : List User
  enforce : String → String → String → Except String Bool
  now : Nat

/-- Models `middleware.Auth` (backend/middleware/auth.go): reject an absent
header, reject a header that is not `Bearer <token>`, validate the token,
sync the user with graceful degradation on persistence failure, reject an
inactive synced account, and otherwise store the claims in the context and
invoke the next handler. Returns the outcome plus the collaborator calls
made; `.dispatched ctx` means `next.ServeHTTP` ran with context `ctx`. -/
def Auth (env : Env) (req : Request) : Outcome × List Event :=
  if req.authHeader == "" then
    (.reject 401 "Missing authorization header", [])
  else
    match splitN2 req.authHeader with
    | [scheme, tokenString] =>
        if scheme != "Bearer" then
          (.reject 401 "Invalid authorization header format", [])
        else
          match env.parse tokenString with
          | none => (.reject 401 "Invalid or expired token", [Event.validateCall])
          | some tok =>
              match ValidateAccessToken tok env.now with
              | .error _ => (.reject 401 "Invalid or expired token", [Event.validateCall])
              | .ok claims =>
                  let user? := (CreateOrUpdateUser env.syncFail env.users
                    claims.userID claims.email claims.name env.now).map Prod.fst
                  if user?.any (fun u => !u.isActive) then
                    (.reject 403 "User account is inactive",
                     [Event.validateCall, Event.syncCall])
                  else
                    let ctx := ((req.ctx.withValue UserIDKey (.uuid claims.userID)).withValue
                      EmailKey (.str claims.email)).withValue NameKey (.str claims.name)
                    (.dispatched ctx, [Event.validateCall, Event.syncCall])
    | _ => (.reject 401 "Invalid authorization header format", [])

/-- Models `middleware.Authorize` (backend/middleware/auth.go): require an
authenticated user in the context, then ask the Casbin enforcer about the
triple `("user", r.URL.Path, r.Method)` — the subject is the hard-coded role
string, never the identity from the context. `.dispatched` means the wrapped
handler ran with the request unchanged. -/
def Authorize (enf : String → String → String → Except String Bool)
    (ctx : Ctx) (path method : String) : Outcome × List Event :=
  match GetUserID ctx with
  | none => (.reject 401 "User not authenticated", [])
  | some _ =>
      match enf "user" path method with
      | .error _ => (.reject 500 "Authorization error", [Event.enforceCall])
      | .ok false =>
          (.reject 403 "Forbidden: insufficient permissions", [Event.enforceCall])
      | .ok true => (.dispatched ctx, [Event.enforceCall])

/-- The protected-and-authorized route chain wired in `handlers.SetupRouter`:
`middleware.Auth`, then `middleware.Authorize`, then the business handler.
`.dispatched` in the result means the business handler ran; the event list
records every collaborator call of the whole chain in order. -/
def pipeline (env : Env) (req : Request) : Outcome × List Event :=
  match Auth env req with
  | (.dispatched ctx, evs) =>
      match Authorize env.enforce ctx req.path req.method with
      | (.dispatched ctx2, evs2) =>
          (.dispatched ctx2, evs ++ evs2 ++ [Event.handlerCall])
      | (o, evs2) => (o, evs ++ evs2)
  | out => out

/-- A Casbin policy rule row `(ptype = p, v0, v1, v2)` from the
`casbin_rule` table: role, resource pattern, action pattern. -/
structure PolicyRule where
  role : String
  resource : String
  action : String
deriving Repr, DecidableEq

/-- Modelled from the spec: the Casbin model file `config/casbin_model.conf`
referenced by `config.Load` is not among the sources, so the resource
matcher follows the spec's words — the resource pattern matches the path by
exact match, or by prefix match up to and including a trailing wildcard
segment. -/
def matchResource (pattern path : String) : Bool :=
  if ['/', '*'].isSuffixOf pattern.data then
    pattern.data.dropLast.isPrefixOf path.data
  else pattern == path

/-- Modelled from the spec: the Casbin model file is not among the sources,
so the action matcher follows the spec's words — the action pattern matches
the action by exact token match, or by membership in a disjunction of
parenthesised verbs such as `(GET)|(POST)`. -/
def matchAction (pattern act : String) : Bool :=
  pattern == act ||
    (splitAll '|' pattern.data).contains (('(' :: act.data) ++ [')'])

/-- Modelled from the spec: policy evaluation `enforce(role, path, action)`
returns true iff at least one rule's role matches exactly, its resource
pattern matches the path, and its action pattern matches the action. -/
def enforce (rules : List PolicyRule) (role path act : String) : Bool :=
  rules.any (fun r => r.role == role && matchResource r.resource path &&
    matchAction r.action act)

/-- The rule set seeded by backend/migrations/000002_add_casbin.up.sql. -/
def seededRules : List PolicyRule :=
  [⟨"user", "/api/v1/auth/me", "GET"⟩,
   ⟨"user", "/api/v1/items", "(GET)|(POST)"⟩,
   ⟨"user", "/api/v1/items/*", "(GET)|(PATCH)|(DELETE)"⟩]

/-- The rejection status of an outcome, `none` for a dispatch. -/
def Outcome.status : Outcome → Option Nat
  | .reject s _ => some s
  | .dispatched _ => none

/-- The externally visible decision of an outcome: the rejection status and
body, or `none` when the stage dispatched onwards. -/
def Outcome.decision : Outcome → Option (Nat × String)
  | .reject s b => some (s, b)
  | .dispatched _ => none

/-- A well-formed RS256 token accepted at time 1000 in the concrete runs. -/
def tokenA : Token := ⟨"RS256", true, 2000, none, "u1", "a@x.se", "Alice"⟩

/-- The claims `ValidateAccessToken` extracts from `tokenA`. -/
def claimsA : Claims := ⟨"u1", "a@x.se", "Alice"⟩

/-- A stored, deactivated user row for the subject of `tokenA`. -/
def userInactive : User := ⟨"u1", "a@x.se", "Alice", none, none, false, 10, 10⟩

/-- A stored, active user row for the subject of `tokenA`, with stale email
and name and populated provider fields. -/
def userActive : User :=
  ⟨"u1", "old@x.se", "Al", some "g1", some "img1", true, 10, 10⟩

/-- Token parsing in the concrete runs: the compact string t1 parses to
`tokenA`; everything else is malformed. -/
def parseA : String → Option Token :=
  fun s => if s == "t1" then some tokenA else none

/-- A Casbin enforcer over the seeded rules that never faults. -/
def enfSeeded : String → String → String → Except String Bool :=
  fun role path act => .ok (enforce seededRules role path act)

/-- Environment whose stored record for u1 is deactivated and whose
persistence layer fails during sync. -/
def envInactiveFail : Env := ⟨parseA, true, [userInactive], enfSeeded, 1000⟩

/-- Environment whose stored record for u1 is deactivated, with a healthy
persistence layer. -/
def envInactiveOk : Env := ⟨parseA, false, [userInactive], enfSeeded, 1000⟩

/-- Environment whose stored record for u1 is active, with a healthy
persistence layer. -/
def envActiveOk : Env := ⟨parseA, false, [userActive], enfSeeded, 1000⟩

/-- Environment whose stored record for u1 is active and whose persistence
layer fails during sync. -/
def envActiveFail : Env := ⟨parseA, true, [userActive], enfSeeded, 1000⟩

/-- Environment evaluated at time 3000, past the expiry of `tokenA`. -/
def envExpired : Env := ⟨parseA, false, [userActive], enfSeeded, 3000⟩

/-- A well-formed request for GET /api/v1/items/42 bearing the token t1. -/
def reqA : Request := ⟨"Bearer t1", "/api/v1/items/42", "GET", []⟩

/-- A request whose Authorization header uses the wrong scheme. -/
def reqBad : Request := ⟨"Token abc", "/api/v1/items/42", "GET", []⟩

/-- C3: any token whose header declares a signing algorithm outside the RSA
family — for example HS256 or none — is rejected by `ValidateAccessToken`,
whatever the signature content, because the key function fires before any
signature check. -/
theorem C3_non_rsa_algorithm_rejected (tok : Token) (now : Nat)
    (h : isRSAFamily tok.alg = false) :
    ValidateAccessToken tok now =
      .error ("unexpected signing method: " ++ tok.alg) := by
  simp [ValidateAccessToken, h]

/-- Witness for C3: an HS256 token with a valid-looking signature is
rejected. -/
theorem C3_non_rsa_algorithm_rejected_witness :
    isRSAFamily "HS256" = false ∧
    ValidateAccessToken ⟨"HS256", true, 2000, none, "u1", "a@x.se", "Alice"⟩ 1000 =
      .error ("unexpected signing method: " ++ "HS256") :=
  ⟨by decide,
   C3_non_rsa_algorithm_rejected
     ⟨"HS256", true, 2000, none, "u1", "a@x.se", "Alice"⟩ 1000 (by decide)⟩

/-- C7: against the seeded rules, user GET on /api/v1/items/42 is allowed,
user POST there is denied, admin GET there is denied; and in general policy
evaluation returns true iff some rule's role matches exactly, its resource
pattern matches the path, and its action pattern matches the action. -/
theorem C7_policy_evaluation :
    enforce seededRules "user" "/api/v1/items/42" "GET" = true ∧
    enforce seededRules "user" "/api/v1/items/42" "POST" = false ∧
    enforce seededRules "admin" "/api/v1/items/42" "GET" = false ∧
    ∀ (rules : List PolicyRule) (role path act : String),
      enforce rules role path act = true ↔
        ∃ r ∈ rules, r.role = role ∧ matchResource r.resource path = true ∧
          matchAction r.action act = true := by
  refine ⟨by decide, by decide, by decide, ?_⟩
  intro rules role path act
  simp [enforce, List.any_eq_true, Bool.and_eq_true, beq_iff_eq, and_assoc]

/-- Witness for C7: the iff direction instantiated on the seeded rules —
POST on the items collection is allowed through the second rule. -/
theorem C7_policy_evaluation_witness :
    enforce seededRules "user" "/api/v1/items" "POST" = true :=
  (C7_policy_evaluation.2.2.2 seededRules "user" "/api/v1/items" "POST").mpr
    ⟨⟨"user", "/api/v1/items", "(GET)|(POST)"⟩, by decide, rfl, by decide, by decide⟩

/-- C5: an absent Authorization header, a header that does not split into
exactly two space-separated parts, or a first part other than Bearer, makes
the chain answer 401 without calling any collaborator — in particular the
next handler is never invoked. -/
theorem C5_malformed_header_rejected (env : Env) (req : Request)
    (h : req.authHeader = "" ∨ (splitN2 req.authHeader).length ≠ 2 ∨
      (splitN2 req.authHeader).head? ≠ some "Bearer") :
    (pipeline env req).1.status = some 401 ∧ (pipeline env req).2 = [] := by
  by_cases h0 : req.authHeader = ""
  · simp [pipeline, Auth, h0, Outcome.status]
  · rcases hs : splitN2 req.authHeader with _ | ⟨x, _ | ⟨y, _ | ⟨z, tl⟩⟩⟩
    · simp [pipeline, Auth, h0, hs, Outcome.status]
    · simp [pipeline, Auth, h0, hs, Outcome.status]
    · rcases h with h | h | h
      · exact absurd h h0
      · rw [hs] at h; simp at h
      · rw [hs] at h
        simp only [List.head?_cons, ne_eq, Option.some.injEq] at h
        simp [pipeline, Auth, h0, hs, h, Outcome.status]
    · simp [pipeline, Auth, h0, hs, Outcome.status]

/-- Witness for C5: a header with scheme Token is rejected with 401 and no
collaborator call. -/
theorem C5_malformed_header_rejected_witness :
    (pipeline envActiveOk reqBad).1.status = some 401 ∧
    (pipeline envActiveOk reqBad).2 = [] :=
  C5_malformed_header_rejected envActiveOk reqBad (by decide)

/-- C9: the decision of the Authorize middleware depends only on the path and
the method — any two authenticated contexts produce the same enforcer call
trace and the same allow/deny decision, because the subject is the constant
role string. -/
theorem C9_authorize_identity_independent
    (enf : String → String → String → Except String Bool) (path method : String)
    (ctx1 ctx2 : Ctx) (a b : String)
    (h1 : GetUserID ctx1 = some a) (h2 : GetUserID ctx2 = some b) :
    (Authorize enf ctx1 path method).1.decision =
      (Authorize enf ctx2 path method).1.decision ∧
    (Authorize enf ctx1 path method).2 = (Authorize enf ctx2 path method).2 := by
  unfold Authorize
  simp only [h1, h2]
  cases henf : enf "user" path method with
  | error e => simp [Outcome.decision]
  | ok br => cases br <;> simp [Outcome.decision]

/-- Witness for C9: two different authenticated identities get the identical
decision on GET /api/v1/items/42. -/
theorem C9_authorize_identity_independent_witness :
    (Authorize enfSeeded [(UserIDKey, CtxVal.uuid "u1")] "/api/v1/items/42" "GET").1.decision =
      (Authorize enfSeeded [(UserIDKey, CtxVal.uuid "u2")] "/api/v1/items/42" "GET").1.decision ∧
    (Authorize enfSeeded [(UserIDKey, CtxVal.uuid "u1")] "/api/v1/items/42" "GET").2 =
      (Authorize enfSeeded [(UserIDKey, CtxVal.uuid "u2")] "/api/v1/items/42" "GET").2 :=
  C9_authorize_identity_independent enfSeeded "/api/v1/items/42" "GET"
    [(UserIDKey, CtxVal.uuid "u1")] [(UserIDKey, CtxVal.uuid "u2")] "u1" "u2"
    (by decide) (by decide)

/-- C2: when the token is accepted and the identity sync fails, the Auth
middleware does not reject — it dispatches to the next handler with exactly
the claims from the token stored in the context, so the sync failure is not
visible in the outcome. -/
theorem C2_sync_failure_recoverable (env : Env) (req : Request)
    (ts : String) (tok : Token) (claims : Claims)
    (hna : req.authHeader ≠ "")
    (hsplit : splitN2 req.authHeader = ["Bearer", ts])
    (hparse : env.parse ts = some tok)
    (hval : ValidateAccessToken tok env.now = .ok claims)
    (hfail : env.syncFail = true) :
    Auth env req =
      (.dispatched (((req.ctx.withValue UserIDKey (.uuid claims.userID)).withValue
          EmailKey (.str claims.email)).withValue NameKey (.str claims.name)),
       [Event.validateCall, Event.syncCall]) := by
  simp [Auth, hna, hsplit, hparse, hval, CreateOrUpdateUser, hfail]

/-- Witness for C2: with a failing persistence layer, the request bearing t1
is dispatched with the claims of tokenA in context. -/
theorem C2_sync_failure_recoverable_witness :
    Auth envActiveFail reqA =
      (.dispatched [(NameKey, CtxVal.str "Alice"), (EmailKey, CtxVal.str "a@x.se"),
        (UserIDKey, CtxVal.uuid "u1")],
       [Event.validateCall, Event.syncCall]) :=
  C2_sync_failure_recoverable envActiveFail reqA "t1" tokenA claimsA
    (by decide) (by decide) (by decide) (by decide) (by decide)

/-- C4: a request whose token has expired is answered 401 and the chain makes
no sync call and no enforcer call — token validation short-circuits the
pipeline. -/
theorem C4_expired_token_short_circuits (env : Env) (req : Request)
    (ts : String) (tok : Token)
    (hna : req.authHeader ≠ "")
    (hsplit : splitN2 req.authHeader = ["Bearer", ts])
    (hparse : env.parse ts = some tok)
    (hexp : tok.exp < env.now) :
    pipeline env req = (.reject 401 "Invalid or expired token", [Event.validateCall]) ∧
    (pipeline env req).2.contains Event.syncCall = false ∧
    (pipeline env req).2.contains Event.enforceCall = false := by
  have hle : tok.exp ≤ env.now := Nat.le_of_lt hexp
  have hmain : pipeline env req =
      (.reject 401 "Invalid or expired token", [Event.validateCall]) := by
    cases h1 : isRSAFamily tok.alg
    · simp [pipeline, Auth, hna, hsplit, hparse, ValidateAccessToken, h1]
    · cases h2 : tok.sigValid
      · simp [pipeline, Auth, hna, hsplit, hparse, ValidateAccessToken, h1, h2]
      · simp [pipeline, Auth, hna, hsplit, hparse, ValidateAccessToken, h1, h2, hle]
  exact ⟨hmain, by rw [hmain]; decide, by rw [hmain]; decide⟩

/-- Witness for C4: at time 3000 the token expiring at 2000 yields 401 with
only the validation call in the trace. -/
theorem C4_expired_token_short_circuits_witness :
    pipeline envExpired reqA = (.reject 401 "Invalid or expired token", [Event.validateCall]) ∧
    (pipeline envExpired reqA).2.contains Event.syncCall = false ∧
    (pipeline envExpired reqA).2.contains Event.enforceCall = false :=
  C4_expired_token_short_circuits envExpired reqA "t1" tokenA
    (by decide) (by decide) (by decide) (by decide)

/-- C6: when the sync step succeeds and returns a deactivated record, the
chain answers 403 — a class distinct from 401 — and neither the enforcer nor
the business handler runs. -/
theorem C6_inactive_account_forbidden (env : Env) (req : Request)
    (ts : String) (tok : Token) (claims : Claims) (u : User) (rows2 : List User)
    (hna : req.authHeader ≠ "")
    (hsplit : splitN2 req.authHeader = ["Bearer", ts])
    (hparse : env.parse ts = some tok)
    (hval : ValidateAccessToken tok env.now = .ok claims)
    (hsync : CreateOrUpdateUser env.syncFail env.users claims.userID claims.email
      claims.name env.now = some (u, rows2))
    (hin : u.isActive = false) :
    pipeline env req =
      (.reject 403 "User account is inactive", [Event.validateCall, Event.syncCall]) ∧
    (403 : Nat) ≠ 401 := by
  refine ⟨?_, by decide⟩
  simp [pipeline, Auth, hna, hsplit, hparse, hval, hsync, hin]

/-- Witness for C6: with a healthy store holding the deactivated u1 record,
the request bearing t1 is answered 403. -/
theorem C6_inactive_account_forbidden_witness :
    pipeline envInactiveOk reqA =
      (.reject 403 "User account is inactive", [Event.validateCall, Event.syncCall]) ∧
    (403 : Nat) ≠ 401 :=
  C6_inactive_account_forbidden envInactiveOk reqA "t1" tokenA claimsA
    ⟨"u1", "a@x.se", "Alice", none, none, false, 10, 1000⟩
    [⟨"u1", "a@x.se", "Alice", none, none, false, 10, 1000⟩]
    (by decide) (by decide) (by decide) (by decide) (by decide) (by decide)

/-- C1 counterexample: in `envInactiveFail` the stored Identity Record of
subject u1 has active-status false, but the identity sync fails for the
request, so the inactive check is skipped and the pipeline dispatches the
request to the business handler instead of rejecting it. -/
theorem C1_counterexample :
    envInactiveFail.users = [userInactive] ∧
    userInactive.id = tokenA.sub ∧
    userInactive.isActive = false ∧
    envInactiveFail.syncFail = true ∧
    (pipeline envInactiveFail reqA).2.contains Event.handlerCall = true ∧
    (pipeline envInactiveFail reqA).1.status = none := by decide

/-- C1 amended: when the stored record of the token's subject has
active-status false and the identity sync succeeds for the request, the
pipeline rejects with 403 and the business handler is never invoked. -/
theorem C1_inactive_fail_closed_when_sync_succeeds (env : Env) (req : Request)
    (ts : String) (tok : Token) (claims : Claims) (u : User)
    (hna : req.authHeader ≠ "")
    (hsplit : splitN2 req.authHeader = ["Bearer", ts])
    (hparse : env.parse ts = some tok)
    (hval : ValidateAccessToken tok env.now = .ok claims)
    (hfail : env.syncFail = false)
    (hfind : env.users.find? (fun r => r.id == claims.userID) = some u)
    (hin : u.isActive = false) :
    (pipeline env req).1 = .reject 403 "User account is inactive" ∧
    (pipeline env req).2.contains Event.handlerCall = false := by
  have hmain : pipeline env req =
      (.reject 403 "User account is inactive", [Event.validateCall, Event.syncCall]) := by
    simp [pipeline, Auth, hna, hsplit, hparse, hval, CreateOrUpdateUser, hfail,
      upsertUser, hfind, hin]
  exact ⟨by rw [hmain], by rw [hmain]; decide⟩

/-- Witness for the amended C1: the deactivated u1 record with a healthy
store makes the request bearing t1 end in 403 with no handler call. -/
theorem C1_inactive_fail_closed_when_sync_succeeds_witness :
    (pipeline envInactiveOk reqA).1 = .reject 403 "User account is inactive" ∧
    (pipeline envInactiveOk reqA).2.contains Event.handlerCall = false :=
  C1_inactive_fail_closed_when_sync_succeeds envInactiveOk reqA "t1" tokenA claimsA
    userInactive (by decide) (by decide) (by decide) (by decide) (by decide)
    (by decide) (by decide)

/-- C8: when a row for the subject already exists, the upsert of
`CreateOrUpdateUser` returns that row with only email, name and the
last-modified timestamp replaced — active-status, creation timestamp,
provider id and avatar are untouched — and the table keeps the same row
count and the same keys, with every other row unchanged. -/
theorem C8_upsert_frame (rows : List User) (id email name : String) (now : Nat)
    (u : User) (hfind : rows.find? (fun r => r.id == id) = some u) :
    (upsertUser rows id email name now).1 =
      { u with email := email, name := name, updatedAt := now } ∧
    (upsertUser rows id email name now).2.length = rows.length ∧
    (upsertUser rows id email name now).2.map User.id = rows.map User.id ∧
    ∀ r ∈ rows, r.id ≠ id → r ∈ (upsertUser rows id email name now).2 := by
  have hid : u.id = id := by
    have h := List.find?_some hfind
    simpa [beq_iff_eq] using h
  unfold upsertUser
  rw [hfind]
  refine ⟨rfl, by simp, ?_, ?_⟩
  · rw [List.map_map]
    apply List.map_congr_left
    intro r _
    by_cases hrid : r.id = id
    · simp [Function.comp, hrid, hid]
    · simp [Function.comp, hrid]
  · intro r hr hrid
    have heq : (fun x => if x.id == id then
        { u with email := email, name := name, updatedAt := now } else x) r = r := by
      simp [hrid]
    exact heq ▸ List.mem_map_of_mem _ hr

/-- Witness for C8: upserting fresh claims over the stored active u1 row
changes exactly email, name and updated-at. -/
theorem C8_upsert_frame_witness :
    (upsertUser [userActive] "u1" "a@x.se" "Alice" 1000).1 =
      { userActive with email := "a@x.se", name := "Alice", updatedAt := 1000 } ∧
    (upsertUser [userActive] "u1" "a@x.se" "Alice" 1000).2.length = [userActive].length ∧
    (upsertUser [userActive] "u1" "a@x.se" "Alice" 1000).2.map User.id =
      [userActive].map User.id :=
  have h := C8_upsert_frame [userActive] "u1" "a@x.se" "Alice" 1000 userActive (by decide)
  ⟨h.1, h.2.1, h.2.2.1⟩

/-- C10: whenever the Auth middleware dispatches, the context handed to the
next handler round-trips the verified claims — the three getters recover the
token's subject id, email and display name, each with ok true. -/
theorem C10_context_roundtrip (env : Env) (req : Request)
    (ts : String) (tok : Token) (claims : Claims) (ctx : Ctx)
    (hna : req.authHeader ≠ "")
    (hsplit : splitN2 req.authHeader = ["Bearer", ts])
    (hparse : env.parse ts = some tok)
    (hval : ValidateAccessToken tok env.now = .ok claims)
    (hdisp : (Auth env req).1 = .dispatched ctx) :
    GetUserID ctx = some claims.userID ∧ GetEmail ctx = some claims.email ∧
    GetName ctx = some claims.name := by
  cases hact : ((CreateOrUpdateUser env.syncFail env.users claims.userID claims.email
      claims.name env.now).map Prod.fst).any (fun u => !u.isActive) with
  | true =>
      have hrej : (Auth env req).1 = Outcome.reject 403 "User account is inactive" := by
        simp [Auth, hna, hsplit, hparse, hval, hact]
      rw [hrej] at hdisp
      exact absurd hdisp (by simp)
  | false =>
      have hd : (Auth env req).1 =
          Outcome.dispatched (((req.ctx.withValue UserIDKey (.uuid claims.userID)).withValue
            EmailKey (.str claims.email)).withValue NameKey (.str claims.name)) := by
        simp [Auth, hna, hsplit, hparse, hval, hact]
      rw [hd] at hdisp
      injection hdisp with hctx
      subst hctx
      refine ⟨?_, ?_, ?_⟩ <;>
        simp [GetUserID, GetEmail, GetName, Ctx.value, Ctx.withValue,
          UserIDKey, EmailKey, NameKey, List.find?]

/-- Witness for C10: in the successful concrete run the context handed to
the handler returns u1, the email and the name of tokenA. -/
theorem C10_context_roundtrip_witness :
    GetUserID [(NameKey, CtxVal.str "Alice"), (EmailKey, CtxVal.str "a@x.se"),
      (UserIDKey, CtxVal.uuid "u1")] = some claimsA.userID ∧
    GetEmail [(NameKey, CtxVal.str "Alice"), (EmailKey, CtxVal.str "a@x.se"),
      (UserIDKey, CtxVal.uuid "u1")] = some claimsA.email ∧
    GetName [(NameKey, CtxVal.str "Alice"), (EmailKey, CtxVal.str "a@x.se"),
      (UserIDKey, CtxVal.uuid "u1")] = some claimsA.name :=
  C10_context_roundtrip envActiveOk reqA "t1" tokenA claimsA
    [(NameKey, CtxVal.str "Alice"), (EmailKey, CtxVal.str "a@x.se"),
      (UserIDKey, CtxVal.uuid "u1")]
    (by decide) (by decide) (by decide) (by decide) (by decide)

end FullstackStarter
